import Mathlib

/-!
Shallow embedding of the alert relay implemented in src/telegram-bot/bot.py.

Monotonic time values (Python loop.time(), a float) are modelled as
rationals; only linear comparison and subtraction occur in the source, so
this is faithful. Wall-clock ISO-8601 timestamps are opaque strings,
supplied as parameters where the source calls get_iso_now(). The outcome of
each HTTP POST to the Telegram API is supplied by an environment function,
one outcome per attempt index.
-/

/-- Outcome of one HTTP POST attempt against the Telegram sendMessage API:
ok is an HTTP 200 response, httpError is any non-200 response, netError is
an exception raised by the request (network failure or timeout). The source
treats httpError and netError identically: log and fall through to the
backoff. -/
inductive AttemptOutcome where
  | ok
  | httpError
  | netError
deriving DecidableEq

/-- One entry of alert_history, as built in process_queue (bot.py lines
108-115). -/
structure HistoryEntry where
  timestamp : String
  symbol : String
  category : String
  severity : String
  message : String
deriving DecidableEq

/-- A parsed JSON body for an alert. A field holds none when the key is
absent from the JSON object; process_queue reads each field with a default
via alert.get. -/
structure AlertDict where
  message : Option String
  type : Option String
  cooldown : Option ℚ
  severity : Option String
  symbol : Option String
deriving DecidableEq

/-- The cooldown_tracker dictionary (bot.py line 28): category to monotonic
timestamp of the last successful send. -/
abbrev CooldownMap := List (String × ℚ)

/-- Python dict lookup: the most recent binding for the key, none when the
key is absent. -/
def lookupCd : CooldownMap → String → Option ℚ
  | [], _ => none
  | (k, v) :: rest, key => if key = k then some v else lookupCd rest key

/-- Python dict assignment; the new binding shadows any earlier one. -/
def setCd (m : CooldownMap) (k : String) (v : ℚ) : CooldownMap := (k, v) :: m

/-- The mutable globals of bot.py written by the dispatch loop. -/
structure DispatchState where
  cooldown_tracker : CooldownMap
  alert_history : List HistoryEntry
  last_successful_message_timestamp : Option String
deriving DecidableEq

/-- State at process start: empty tracker, empty history, no last send. -/
def initState : DispatchState := ⟨[], [], none⟩

/-- alert_history is a deque with maxlen 50; appendleft keeps the entry and
the newest 49 old entries, silently evicting from the right. -/
def recordHistory (e : HistoryEntry) (h : List HistoryEntry) : List HistoryEntry :=
  (e :: h).take 50

/-- max_retries in send_to_telegram (bot.py line 62). -/
def max_retries : ℕ := 3

/-- The request timeout passed to session.post (bot.py line 65). -/
def requestTimeoutUnits : ℚ := 10

/-- Observable trace of one call to send_to_telegram: the returned boolean,
the number of attempts made, the backoff sleeps in order, the request
timeout used by each attempt, and the value written to
last_successful_message_timestamp, if any. -/
structure SendResult where
  success : Bool
  attempts : ℕ
  sleeps : List ℚ
  timeouts : List ℚ
  tsSet : Option String
deriving DecidableEq

/-- The retry loop of send_to_telegram (bot.py lines 62-80), iterating over
the attempt indices still to run; the Python for-loop runs it on
range(max_retries). A 200 response returns True at once, after setting
last_successful_message_timestamp to the current wall-clock instant; any
other outcome is logged and, when attempt < max_retries - 1, the loop
sleeps 2 ^ attempt time-units before the next attempt. -/
def sendLoop (outcomes : ℕ → AttemptOutcome) (isoNow : String) : List ℕ → SendResult
  | [] => ⟨false, 0, [], [], none⟩
  | attempt :: rest =>
    if outcomes attempt = AttemptOutcome.ok then
      ⟨true, 1, [], [requestTimeoutUnits], some isoNow⟩
    else
      let r := sendLoop outcomes isoNow rest
      ⟨r.success, r.attempts + 1,
        (if attempt < max_retries - 1 then [(2 : ℚ) ^ attempt] else []) ++ r.sleeps,
        requestTimeoutUnits :: r.timeouts, r.tsSet⟩

/-- send_to_telegram (bot.py lines 53-80) as a trace of one call. -/
def send_to_telegram (outcomes : ℕ → AttemptOutcome) (isoNow : String) : SendResult :=
  sendLoop outcomes isoNow (List.range max_retries)

/-- send_to_telegram together with its write to the global
last_successful_message_timestamp (bot.py line 67): the cooldown tracker and
the history are not touched by the routine itself. -/
def send_to_telegram_run (outcomes : ℕ → AttemptOutcome) (isoNow : String)
    (st : DispatchState) : Bool × DispatchState :=
  let r := send_to_telegram outcomes isoNow
  (r.success,
    { cooldown_tracker := st.cooldown_tracker
      alert_history := st.alert_history
      last_successful_message_timestamp :=
        match r.tsSet with
        | some t => some t
        | none => st.last_successful_message_timestamp })

/-- The admission test of process_queue (bot.py lines 99-105): the alert is
dropped iff current_time - last_sent < cooldown_sec, where last_sent is
cooldown_tracker.get(alert_type, 0). Returns true when the alert proceeds. -/
def cooldown_check (tracker : CooldownMap) (alert_type : String)
    (cooldown_sec : ℚ) (current_time : ℚ) : Bool :=
  let last_sent := (lookupCd tracker alert_type).getD 0
  if current_time - last_sent < cooldown_sec then false else true

/-- The history entry built for an admitted alert (bot.py lines 108-115),
with the field defaults of lines 91-95. -/
def entryOf (alert : AlertDict) (isoAtRecord : String) : HistoryEntry :=
  ⟨isoAtRecord, alert.symbol.getD "", alert.type.getD "default",
    alert.severity.getD "info", alert.message.getD "Alert from Crypto Terminal"⟩

/-- One iteration of the while-loop of process_queue (bot.py lines 89-124)
on one dequeued alert: current_time is the monotonic sample taken at line
98, isoAtRecord the wall-clock instant of the history record, outcomes and
isoAtSend the environment of the inner send_to_telegram call. Returns the
new global state and the send trace, or none when the alert was dropped on
cooldown. -/
def process_queue_step (st : DispatchState) (alert : AlertDict)
    (current_time : ℚ) (isoAtRecord : String)
    (outcomes : ℕ → AttemptOutcome) (isoAtSend : String) :
    DispatchState × Option SendResult :=
  let alert_type := alert.type.getD "default"
  let cooldown_sec := alert.cooldown.getD 0
  if cooldown_check st.cooldown_tracker alert_type cooldown_sec current_time then
    let st1 : DispatchState :=
      { cooldown_tracker := st.cooldown_tracker
        alert_history := recordHistory (entryOf alert isoAtRecord) st.alert_history
        last_successful_message_timestamp := st.last_successful_message_timestamp }
    let sr := send_to_telegram_run outcomes isoAtSend st1
    (if sr.1 then
      { cooldown_tracker := setCd sr.2.cooldown_tracker alert_type current_time
        alert_history := sr.2.alert_history
        last_successful_message_timestamp := sr.2.last_successful_message_timestamp }
    else sr.2,
      some (send_to_telegram outcomes isoAtSend))
  else
    (st, none)

/-- HTTP result of handle_alert (bot.py lines 130-146). -/
inductive AlertResponse where
  | queued
  | missingField
  | invalidJson
deriving DecidableEq

/-- The HTTP status code attached to each handle_alert outcome. -/
def statusCode : AlertResponse → ℕ
  | AlertResponse.queued => 202
  | AlertResponse.missingField => 400
  | AlertResponse.invalidJson => 400

/-- handle_alert (bot.py lines 130-146): body is none when request.json()
raised on malformed JSON. The validation tests only that the message key is
present. On success the alert is appended to the FIFO queue before the 202
response. -/
def handle_alert (body : Option AlertDict) (queue : List AlertDict) :
    AlertResponse × List AlertDict :=
  match body with
  | none => (AlertResponse.invalidJson, queue)
  | some data =>
    match data.message with
    | none => (AlertResponse.missingField, queue)
    | some _ => (AlertResponse.queued, queue ++ [data])

/-- The per-cycle inputs of one dispatch iteration: the dequeued alert, the
monotonic sample, the wall-clock instant of the record and the send
environment. -/
structure CycleInput where
  alert : AlertDict
  current_time : ℚ
  isoAtRecord : String
  outcomes : ℕ → AttemptOutcome
  isoAtSend : String

/-- Runs process_queue_step over a list of dispatch cycles in order. -/
def run_cycles (st : DispatchState) : List CycleInput → DispatchState
  | [] => st
  | c :: rest =>
      run_cycles (process_queue_step st c.alert c.current_time c.isoAtRecord
        c.outcomes c.isoAtSend).1 rest

/-- One event seen by the while-True loop of process_queue: a normally
processed item, a processing fault caught by the except-clause at line 127
(f is whatever partial state mutation the failed cycle left behind), or a
CancelledError raised into the worker. -/
inductive CycleEvent where
  | item (alert : AlertDict) (current_time : ℚ) (isoAtRecord : String)
      (outcomes : ℕ → AttemptOutcome) (isoAtSend : String)
  | fault (f : DispatchState → DispatchState)
  | cancel

/-- The while-True loop of process_queue (bot.py lines 95-128) consuming a
list of events: returns the final state, the number of events consumed and
whether the worker is still running. CancelledError breaks the loop; any
other exception is logged and the loop continues with the next item. -/
def worker : DispatchState → List CycleEvent → DispatchState × ℕ × Bool
  | st, [] => (st, 0, true)
  | st, CycleEvent.cancel :: _ => (st, 1, false)
  | st, CycleEvent.fault f :: rest =>
      let r := worker (f st) rest
      (r.1, r.2.1 + 1, r.2.2)
  | st, CycleEvent.item a t iA out iS :: rest =>
      let r := worker (process_queue_step st a t iA out iS).1 rest
      (r.1, r.2.1 + 1, r.2.2)

/-- All timestamps recorded in the cooldown tracker are at most t. Every
reachable tracker satisfies this for the current monotonic sample, because
entries are only ever written from earlier samples of the same monotonic
clock. -/
def TimesBounded (m : CooldownMap) (t : ℚ) : Prop := ∀ p ∈ m, p.2 ≤ t

/-- Folding recordHistory over a list of entries, oldest first, starting
from an empty history. -/
def insertAll (es : List HistoryEntry) : List HistoryEntry :=
  es.foldl (fun h e => recordHistory e h) []

/-- Environment where every attempt returns HTTP 200. -/
def outAllOk : ℕ → AttemptOutcome := fun _ => AttemptOutcome.ok

/-- Environment where every attempt raises a network error. -/
def outAllFail : ℕ → AttemptOutcome := fun _ => AttemptOutcome.netError

/-- Environment where the first attempt fails and later ones succeed. -/
def outSecondOk : ℕ → AttemptOutcome :=
  fun n => if n = 0 then AttemptOutcome.netError else AttemptOutcome.ok

/-- A price alert with a 3600 second cooldown. -/
def alert3600 : AlertDict := ⟨some "BTC above 50k", some "price", some 3600, none, none⟩

/-- A price alert with a 60 second cooldown. -/
def alert60 : AlertDict := ⟨some "BTC above 50k", some "price", some 60, none, none⟩

/-- A state whose tracker has a price entry recorded at monotonic time 100. -/
def trackedState : DispatchState := ⟨[("price", 100)], [], none⟩

/-- A request body whose message key holds the empty string. -/
def emptyMsgBody : AlertDict := ⟨some "", none, none, none, none⟩

/-- A request body without a message key. -/
def noMsgBody : AlertDict := ⟨none, none, none, none, none⟩

/-- Strings of pairwise distinct length, used to build distinct entries. -/
def natMsg (i : ℕ) : String := String.mk (List.replicate i 'a')

/-- History entries with pairwise distinct messages. -/
def natEntry (i : ℕ) : HistoryEntry := ⟨"", "", "", "", natMsg i⟩

/-- A concrete dispatch cycle at monotonic time 50. -/
def cyc1 : CycleInput := ⟨alert60, 50, "A", outAllOk, "S"⟩

/-! Helper lemmas about the embedded operations. -/

theorem lookupCd_mem {m : CooldownMap} {k : String} {v : ℚ}
    (h : lookupCd m k = some v) : (k, v) ∈ m := by
  induction m with
  | nil => simp [lookupCd] at h
  | cons p rest ih =>
    obtain ⟨k0, v0⟩ := p
    by_cases hk : k = k0
    · simp only [lookupCd, if_pos hk] at h
      injection h with h2
      subst hk
      subst h2
      exact List.mem_cons_self _ _
    · simp only [lookupCd, if_neg hk] at h
      exact List.mem_cons_of_mem _ (ih h)

theorem lookupCd_setCd_self (m : CooldownMap) (k : String) (v : ℚ) :
    lookupCd (setCd m k v) k = some v := by
  simp [setCd, lookupCd]

theorem cooldown_check_iff (tracker : CooldownMap) (ty : String) (cd t : ℚ) :
    cooldown_check tracker ty cd t = true ↔
      ¬ (t - (lookupCd tracker ty).getD 0 < cd) := by
  by_cases h : t - (lookupCd tracker ty).getD 0 < cd
  · simp [cooldown_check, h]
  · simp [cooldown_check, h]

theorem sendLoop_tsSet (outcomes : ℕ → AttemptOutcome) (isoNow : String) :
    ∀ l, (sendLoop outcomes isoNow l).tsSet =
      if (sendLoop outcomes isoNow l).success then some isoNow else none := by
  intro l
  induction l with
  | nil => simp [sendLoop]
  | cons a rest ih =>
    by_cases h : outcomes a = AttemptOutcome.ok
    · simp [sendLoop, h]
    · simp [sendLoop, h, ih]

theorem send_tsSet (outcomes : ℕ → AttemptOutcome) (isoNow : String) :
    (send_to_telegram outcomes isoNow).tsSet =
      if (send_to_telegram outcomes isoNow).success then some isoNow else none :=
  sendLoop_tsSet outcomes isoNow (List.range max_retries)

/-- Shape of one admitted dispatch cycle, spelled out by delivery outcome. -/
theorem process_step_admitted (st : DispatchState) (a : AlertDict) (now : ℚ)
    (iA : String) (outcomes : ℕ → AttemptOutcome) (iS : String)
    (hadm : cooldown_check st.cooldown_tracker (a.type.getD "default")
      (a.cooldown.getD 0) now = true) :
    process_queue_step st a now iA outcomes iS =
      ((if (send_to_telegram outcomes iS).success then
          { cooldown_tracker := setCd st.cooldown_tracker (a.type.getD "default") now
            alert_history := recordHistory (entryOf a iA) st.alert_history
            last_successful_message_timestamp := some iS }
        else
          { cooldown_tracker := st.cooldown_tracker
            alert_history := recordHistory (entryOf a iA) st.alert_history
            last_successful_message_timestamp :=
              st.last_successful_message_timestamp }),
        some (send_to_telegram outcomes iS)) := by
  cases hs : (send_to_telegram outcomes iS).success with
  | true =>
    have hts : (send_to_telegram outcomes iS).tsSet = some iS := by
      rw [send_tsSet, hs]
      rfl
    simp [process_queue_step, send_to_telegram_run, hadm, hs, hts]
  | false =>
    have hts : (send_to_telegram outcomes iS).tsSet = none := by
      rw [send_tsSet, hs]
      rfl
    simp [process_queue_step, send_to_telegram_run, hadm, hs, hts]

/-- Shape of one dropped dispatch cycle. -/
theorem process_step_dropped (st : DispatchState) (a : AlertDict) (now : ℚ)
    (iA : String) (outcomes : ℕ → AttemptOutcome) (iS : String)
    (hdrop : cooldown_check st.cooldown_tracker (a.type.getD "default")
      (a.cooldown.getD 0) now = false) :
    process_queue_step st a now iA outcomes iS = (st, none) := by
  simp [process_queue_step, hdrop]

theorem range_max_retries : List.range max_retries = [0, 1, 2] := rfl

theorem rangeOneEq : List.range 1 = [0] := rfl

theorem rangeTwoEq : List.range 2 = [0, 1] := rfl

theorem send_eval_first_ok (outcomes : ℕ → AttemptOutcome) (isoNow : String)
    (h0 : outcomes 0 = AttemptOutcome.ok) :
    send_to_telegram outcomes isoNow = ⟨true, 1, [], [10], some isoNow⟩ := by
  rw [send_to_telegram, range_max_retries]
  simp [sendLoop, h0, requestTimeoutUnits]

theorem send_eval_second_ok (outcomes : ℕ → AttemptOutcome) (isoNow : String)
    (h0 : outcomes 0 ≠ AttemptOutcome.ok) (h1 : outcomes 1 = AttemptOutcome.ok) :
    send_to_telegram outcomes isoNow = ⟨true, 2, [1], [10, 10], some isoNow⟩ := by
  rw [send_to_telegram, range_max_retries]
  simp [sendLoop, h0, h1, requestTimeoutUnits, max_retries]

theorem send_eval_third_ok (outcomes : ℕ → AttemptOutcome) (isoNow : String)
    (h0 : outcomes 0 ≠ AttemptOutcome.ok) (h1 : outcomes 1 ≠ AttemptOutcome.ok)
    (h2 : outcomes 2 = AttemptOutcome.ok) :
    send_to_telegram outcomes isoNow = ⟨true, 3, [1, 2], [10, 10, 10], some isoNow⟩ := by
  rw [send_to_telegram, range_max_retries]
  simp [sendLoop, h0, h1, h2, requestTimeoutUnits, max_retries]

theorem send_eval_all_fail (outcomes : ℕ → AttemptOutcome) (isoNow : String)
    (h0 : outcomes 0 ≠ AttemptOutcome.ok) (h1 : outcomes 1 ≠ AttemptOutcome.ok)
    (h2 : outcomes 2 ≠ AttemptOutcome.ok) :
    send_to_telegram outcomes isoNow = ⟨false, 3, [1, 2], [10, 10, 10], none⟩ := by
  rw [send_to_telegram, range_max_retries]
  simp [sendLoop, h0, h1, h2, requestTimeoutUnits, max_retries]

/-- C3: send_to_telegram makes at most 3 attempts, each with a request
timeout of 10 time-units; a 200 response terminates the loop at once and the
call returns true; after the failed attempt with index k < 2 it sleeps
2 ^ k time-units, so on the way to a success at attempt index k the sleeps
are exactly 2 ^ 0 .. 2 ^ (k-1), and when all three attempts fail the sleeps
are exactly 1 then 2, with no sleep after the final failure, and the call
returns false; failure is an ordinary return value, not an exception. -/
theorem delivery_retry_policy (outcomes : ℕ → AttemptOutcome) (isoNow : String) :
    (send_to_telegram outcomes isoNow).attempts ≤ max_retries ∧
    (send_to_telegram outcomes isoNow).timeouts =
      List.replicate (send_to_telegram outcomes isoNow).attempts requestTimeoutUnits ∧
    (∀ k, k < max_retries → outcomes k = AttemptOutcome.ok →
      (∀ j, j < k → outcomes j ≠ AttemptOutcome.ok) →
      (send_to_telegram outcomes isoNow).success = true ∧
      (send_to_telegram outcomes isoNow).attempts = k + 1 ∧
      (send_to_telegram outcomes isoNow).sleeps =
        (List.range k).map (fun j => (2 : ℚ) ^ j)) ∧
    ((∀ k, k < max_retries → outcomes k ≠ AttemptOutcome.ok) →
      (send_to_telegram outcomes isoNow).success = false ∧
      (send_to_telegram outcomes isoNow).attempts = max_retries ∧
      (send_to_telegram outcomes isoNow).sleeps = [1, 2]) := by
  by_cases h0 : outcomes 0 = AttemptOutcome.ok
  · rw [send_eval_first_ok outcomes isoNow h0]
    refine ⟨by norm_num [max_retries], rfl, ?_, ?_⟩
    · intro k hk hok hmin
      have hk3 : k < 3 := hk
      interval_cases k
      · exact ⟨rfl, rfl, by simp⟩
      · exact absurd h0 (hmin 0 (by omega))
      · exact absurd h0 (hmin 0 (by omega))
    · intro hall
      exact absurd h0 (hall 0 (by decide))
  · by_cases h1 : outcomes 1 = AttemptOutcome.ok
    · rw [send_eval_second_ok outcomes isoNow h0 h1]
      refine ⟨by norm_num [max_retries], rfl, ?_, ?_⟩
      · intro k hk hok hmin
        have hk3 : k < 3 := hk
        interval_cases k
        · exact absurd hok h0
        · exact ⟨rfl, rfl, by rw [rangeOneEq]; norm_num⟩
        · exact absurd h1 (hmin 1 (by omega))
      · intro hall
        exact absurd h1 (hall 1 (by decide))
    · by_cases h2 : outcomes 2 = AttemptOutcome.ok
      · rw [send_eval_third_ok outcomes isoNow h0 h1 h2]
        refine ⟨by norm_num [max_retries], rfl, ?_, ?_⟩
        · intro k hk hok hmin
          have hk3 : k < 3 := hk
          interval_cases k
          · exact absurd hok h0
          · exact absurd hok h1
          · exact ⟨rfl, rfl, by rw [rangeTwoEq]; norm_num⟩
        · intro hall
          exact absurd h2 (hall 2 (by decide))
      · rw [send_eval_all_fail outcomes isoNow h0 h1 h2]
        refine ⟨by norm_num [max_retries], rfl, ?_, fun _ => ⟨rfl, rfl, rfl⟩⟩
        intro k hk hok hmin
        have hk3 : k < 3 := hk
        interval_cases k
        · exact absurd hok h0
        · exact absurd hok h1
        · exact absurd hok h2

theorem delivery_retry_policy_witness :
    (send_to_telegram outSecondOk "T").success = true ∧
    (send_to_telegram outSecondOk "T").attempts = 2 ∧
    (send_to_telegram outSecondOk "T").sleeps = [1] := by
  have h := (delivery_retry_policy outSecondOk "T").2.2.1 1 (by decide) (by decide)
    (by decide)
  exact ⟨h.1, h.2.1, by rw [h.2.2, rangeOneEq]; norm_num⟩

/-- C1, counterexample: a dequeued alert whose category has no cooldown
entry is not always admitted. The source reads
cooldown_tracker.get(alert_type, 0), so a missing entry behaves like a send
at monotonic time 0: with the clock at 5 and cooldownSeconds 3600 the alert
is dropped even though no entry exists, the cycle records no history and
makes no delivery attempt. -/
theorem absent_entry_not_always_admitted :
    lookupCd initState.cooldown_tracker "price" = none ∧
    cooldown_check initState.cooldown_tracker "price" 3600 5 = false ∧
    (process_queue_step initState alert3600 5 "T0" outAllOk "T1").2 = none ∧
    (process_queue_step initState alert3600 5 "T0" outAllOk "T1").1 = initState := by
  have hchk : cooldown_check initState.cooldown_tracker "price" 3600 5 = false := by
    norm_num [cooldown_check, lookupCd, initState]
  have hstep : process_queue_step initState alert3600 5 "T0" outAllOk "T1" =
      (initState, none) :=
    process_step_dropped initState alert3600 5 "T0" outAllOk "T1" hchk
  exact ⟨rfl, hchk, by rw [hstep], by rw [hstep]⟩

/-- C1, amended: a dequeued alert is admitted (proceeds to history recording
and delivery) iff now - last_sent is at least its cooldownSeconds, where
last_sent is the timestamp of the cooldown entry for its category, or 0 when
no entry exists; in particular, with no entry it is admitted iff
cooldownSeconds is at most the current monotonic time. -/
theorem admission_iff_elapsed (st : DispatchState) (a : AlertDict) (now : ℚ)
    (iA : String) (outcomes : ℕ → AttemptOutcome) (iS : String) :
    ((process_queue_step st a now iA outcomes iS).2.isSome = true ↔
      ¬ (now - (lookupCd st.cooldown_tracker (a.type.getD "default")).getD 0 <
        a.cooldown.getD 0)) ∧
    (lookupCd st.cooldown_tracker (a.type.getD "default") = none →
      ((process_queue_step st a now iA outcomes iS).2.isSome = true ↔
        a.cooldown.getD 0 ≤ now)) := by
  have key : (process_queue_step st a now iA outcomes iS).2.isSome = true ↔
      ¬ (now - (lookupCd st.cooldown_tracker (a.type.getD "default")).getD 0 <
        a.cooldown.getD 0) := by
    by_cases h : now - (lookupCd st.cooldown_tracker (a.type.getD "default")).getD 0 <
        a.cooldown.getD 0
    · simp [process_queue_step, cooldown_check, h]
    · simp [process_queue_step, cooldown_check, h]
  refine ⟨key, fun hnone => ?_⟩
  rw [key, hnone]
  simp [not_lt]

theorem admission_iff_elapsed_witness :
    (process_queue_step initState alert60 100 "A" outAllOk "S").2.isSome = true :=
  ((admission_iff_elapsed initState alert60 100 "A" outAllOk "S").2 rfl).mpr
    (by norm_num [alert60])

/-- C5: a dequeued alert that fails the cooldown check is dropped with no
history record and no delivery attempt; the cooldown map, the history
ledger and the last-successful-send marker are all unchanged. -/
theorem drop_on_cooldown (st : DispatchState) (a : AlertDict) (now : ℚ)
    (iA : String) (outcomes : ℕ → AttemptOutcome) (iS : String)
    (hdrop : cooldown_check st.cooldown_tracker (a.type.getD "default")
      (a.cooldown.getD 0) now = false) :
    process_queue_step st a now iA outcomes iS = (st, none) :=
  process_step_dropped st a now iA outcomes iS hdrop

theorem drop_on_cooldown_witness :
    process_queue_step trackedState alert60 130 "A" outAllOk "S" =
      (trackedState, none) :=
  drop_on_cooldown trackedState alert60 130 "A" outAllOk "S"
    (by norm_num [cooldown_check, lookupCd, trackedState, alert60])

/-- C2: for an admitted alert the history ledger gains exactly the admission
entry at the front in every case; when delivery succeeds the cooldown entry
for the category is set to the monotonic sample of the cycle and the
last-successful-send marker is set to the success instant; when delivery
fails after all retries, both the cooldown map and the marker are left
unchanged while the history entry remains. -/
theorem settle_after_delivery (st : DispatchState) (a : AlertDict) (now : ℚ)
    (iA : String) (outcomes : ℕ → AttemptOutcome) (iS : String)
    (hadm : cooldown_check st.cooldown_tracker (a.type.getD "default")
      (a.cooldown.getD 0) now = true) :
    (process_queue_step st a now iA outcomes iS).1.alert_history =
      recordHistory (entryOf a iA) st.alert_history ∧
    ((send_to_telegram outcomes iS).success = true →
      (process_queue_step st a now iA outcomes iS).1.cooldown_tracker =
        setCd st.cooldown_tracker (a.type.getD "default") now ∧
      (process_queue_step st a now iA outcomes iS).1.last_successful_message_timestamp
        = some iS) ∧
    ((send_to_telegram outcomes iS).success = false →
      (process_queue_step st a now iA outcomes iS).1.cooldown_tracker =
        st.cooldown_tracker ∧
      (process_queue_step st a now iA outcomes iS).1.last_successful_message_timestamp
        = st.last_successful_message_timestamp) := by
  rw [process_step_admitted st a now iA outcomes iS hadm]
  cases hs : (send_to_telegram outcomes iS).success with
  | true => exact ⟨by simp [hs], fun _ => by simp [hs], fun hc => by simp [hs] at hc⟩
  | false => exact ⟨by simp [hs], fun hc => by simp [hs] at hc, fun _ => by simp [hs]⟩

theorem settle_after_delivery_witness :
    (process_queue_step initState alert60 100 "A" outAllOk "S").1.cooldown_tracker =
      setCd initState.cooldown_tracker "price" 100 ∧
    (process_queue_step initState alert60 100 "A" outAllOk "S").1.last_successful_message_timestamp
      = some "S" :=
  (settle_after_delivery initState alert60 100 "A" outAllOk "S"
    (by norm_num [cooldown_check, lookupCd, initState, alert60])).2.1 (by decide)

/-- C6, counterexample: a POST body whose message key holds the empty string
passes the ingestion check, gets a 202 and is enqueued, so an alert with an
empty message does reach the core; there the empty string is kept, because
dict.get returns the present empty value and not the default. -/
theorem empty_message_reaches_core :
    (handle_alert (some emptyMsgBody) []).1 = AlertResponse.queued ∧
    statusCode (handle_alert (some emptyMsgBody) []).1 = 202 ∧
    (handle_alert (some emptyMsgBody) []).2 = [emptyMsgBody] ∧
    emptyMsgBody.message.getD "Alert from Crypto Terminal" = "" :=
  ⟨rfl, rfl, rfl, rfl⟩

/-- C6, amended: ingestion rejects with 400 exactly the bodies that are
malformed JSON or lack the message key, and nothing is enqueued for them; a
body whose message key is present is accepted with 202 and enqueued, even
when its value is the empty string, so only alerts with an absent message
key never reach the core. -/
theorem ingestion_message_key_check (queue : List AlertDict) (d : AlertDict) :
    (handle_alert none queue = (AlertResponse.invalidJson, queue)) ∧
    (d.message = none →
      handle_alert (some d) queue = (AlertResponse.missingField, queue)) ∧
    (∀ m : String, d.message = some m →
      handle_alert (some d) queue = (AlertResponse.queued, queue ++ [d])) ∧
    statusCode AlertResponse.missingField = 400 ∧
    statusCode AlertResponse.invalidJson = 400 ∧
    statusCode AlertResponse.queued = 202 := by
  refine ⟨rfl, ?_, ?_, rfl, rfl, rfl⟩
  · intro h
    simp [handle_alert, h]
  · intro m h
    simp [handle_alert, h]

theorem ingestion_message_key_check_witness :
    handle_alert (some noMsgBody) [] = (AlertResponse.missingField, []) :=
  (ingestion_message_key_check [] noMsgBody).2.1 rfl

/-- C7, counterexample: the delivery routine is not free of dispatch-state
mutation; on a successful attempt send_to_telegram itself writes the
last-successful-send marker (bot.py line 67), which here changes from none
to the success instant without any action by the caller. -/
theorem send_routine_mutates_marker :
    initState.last_successful_message_timestamp = none ∧
    (send_to_telegram_run outAllOk "TS" initState).2.last_successful_message_timestamp
      = some "TS" :=
  ⟨rfl, rfl⟩

/-- C7, amended: send_to_telegram touches neither the cooldown map nor the
history; it reports the boolean outcome, but it does itself set the
last-successful-send marker on success (and leaves it unchanged on
failure); the caller in process_queue contributes only the cooldown entry
update. -/
theorem send_routine_state_effects (st : DispatchState)
    (outcomes : ℕ → AttemptOutcome) (iso : String) :
    (send_to_telegram_run outcomes iso st).1 = (send_to_telegram outcomes iso).success ∧
    (send_to_telegram_run outcomes iso st).2.cooldown_tracker = st.cooldown_tracker ∧
    (send_to_telegram_run outcomes iso st).2.alert_history = st.alert_history ∧
    ((send_to_telegram outcomes iso).success = true →
      (send_to_telegram_run outcomes iso st).2.last_successful_message_timestamp
        = some iso) ∧
    ((send_to_telegram outcomes iso).success = false →
      (send_to_telegram_run outcomes iso st).2.last_successful_message_timestamp
        = st.last_successful_message_timestamp) ∧
    (∀ (a : AlertDict) (now : ℚ) (iA : String),
      cooldown_check st.cooldown_tracker (a.type.getD "default") (a.cooldown.getD 0)
        now = true →
      (send_to_telegram outcomes iso).success = true →
      (process_queue_step st a now iA outcomes iso).1.cooldown_tracker =
        setCd st.cooldown_tracker (a.type.getD "default") now) := by
  refine ⟨rfl, rfl, rfl, ?_, ?_, ?_⟩
  · intro hs
    have hts : (send_to_telegram outcomes iso).tsSet = some iso := by
      rw [send_tsSet, hs]
      rfl
    simp [send_to_telegram_run, hts]
  · intro hs
    have hts : (send_to_telegram outcomes iso).tsSet = none := by
      rw [send_tsSet, hs]
      rfl
    simp [send_to_telegram_run, hts]
  · intro a now iA hadm hs
    rw [process_step_admitted st a now iA outcomes iso hadm]
    simp [hs]

theorem send_routine_state_effects_witness :
    (send_to_telegram_run outAllFail "TS2" trackedState).2.cooldown_tracker =
      trackedState.cooldown_tracker ∧
    (send_to_telegram_run outAllFail "TS2" trackedState).2.last_successful_message_timestamp
      = trackedState.last_successful_message_timestamp :=
  ⟨(send_routine_state_effects trackedState outAllFail "TS2").2.1,
    (send_routine_state_effects trackedState outAllFail "TS2").2.2.2.2.1 (by decide)⟩

theorem take_append_take {α : Type*} (l t : List α) (n : ℕ) :
    (l ++ t.take n).take n = (l ++ t).take n := by
  rw [List.take_append_eq_append_take, List.take_append_eq_append_take, List.take_take,
    min_eq_left (Nat.sub_le n l.length)]

theorem foldl_record_eq (es : List HistoryEntry) :
    ∀ acc : List HistoryEntry, acc.length ≤ 50 →
      es.foldl (fun h e => recordHistory e h) acc = (es.reverse ++ acc).take 50 := by
  induction es with
  | nil =>
    intro acc h
    simp [List.take_of_length_le h]
  | cons e tl ih =>
    intro acc h
    rw [List.foldl_cons, ih (recordHistory e acc) (List.length_take_le _ _),
      recordHistory, take_append_take, List.reverse_cons, List.append_assoc,
      List.singleton_append]

theorem insertAll_eq (es : List HistoryEntry) : insertAll es = es.reverse.take 50 := by
  rw [insertAll, foldl_record_eq es [] (by simp), List.append_nil]

theorem insertAll_range (N : ℕ) (f : ℕ → HistoryEntry) (h : 50 ≤ N) :
    insertAll ((List.range N).map f) =
      (List.range 50).map (fun k => f (N - 1 - k)) := by
  rw [insertAll_eq, ← List.map_reverse, List.range_eq_range', List.reverse_range',
    ← List.map_take, ← List.map_take, List.take_range, min_eq_left h]
  simp [List.map_map, Function.comp_def]

theorem natEntry_injective : Function.Injective natEntry := by
  intro i j hij
  have hm : natMsg i = natMsg j := congrArg HistoryEntry.message hij
  have hd : List.replicate i 'a' = List.replicate j 'a' := congrArg String.data hm
  simpa using congrArg List.length hd

/-- C4: the history ledger holds at most 50 entries after any insertion,
every insertion puts the new entry at the front, an insertion into a full
ledger drops exactly the oldest entry, and after inserting N > 50 distinct
entries the ledger is exactly the 50 most recent in reverse insertion order
while the entry inserted at position N - 50 (the (N-51)-th, counting from
0) is gone. -/
theorem history_capacity_and_order (N : ℕ) (f : ℕ → HistoryEntry)
    (hN : 50 < N) (hf : Function.Injective f) :
    (∀ (e : HistoryEntry) (h : List HistoryEntry),
      (recordHistory e h).length ≤ 50) ∧
    (∀ (e : HistoryEntry) (h : List HistoryEntry),
      (recordHistory e h).head? = some e) ∧
    (∀ (e : HistoryEntry) (h : List HistoryEntry), h.length = 50 →
      recordHistory e h = e :: h.dropLast) ∧
    insertAll ((List.range N).map f) =
      (List.range 50).map (fun k => f (N - 1 - k)) ∧
    f (N - 51) ∉ insertAll ((List.range N).map f) := by
  refine ⟨?_, ?_, ?_, insertAll_range N f (le_of_lt hN), ?_⟩
  · intro e h
    exact List.length_take_le _ _
  · intro e h
    rfl
  · intro e h hlen
    have hdl : h.dropLast = h.take 49 := by
      rw [List.dropLast_eq_take, hlen]
    rw [recordHistory, hdl]
    show (e :: h).take (49 + 1) = e :: h.take 49
    exact List.take_succ_cons
  · rw [insertAll_range N f (le_of_lt hN)]
    intro hmem
    rw [List.mem_map] at hmem
    obtain ⟨k, hk, heq⟩ := hmem
    rw [List.mem_range] at hk
    have := hf heq
    omega

theorem history_capacity_and_order_witness :
    natEntry 2 ∉ insertAll ((List.range 53).map natEntry) ∧
    (recordHistory (natEntry 0) []).length ≤ 50 :=
  ⟨(history_capacity_and_order 53 natEntry (by omega) natEntry_injective).2.2.2.2,
    (history_capacity_and_order 53 natEntry (by omega) natEntry_injective).1
      (natEntry 0) []⟩

theorem cooldown_check_zero (m : CooldownMap) (cat : String) (t : ℚ)
    (hnow : 0 ≤ t) (hb : TimesBounded m t) :
    cooldown_check m cat 0 t = true := by
  rw [cooldown_check_iff]
  cases hl : lookupCd m cat with
  | none =>
    simp [hl, not_lt]
    linarith
  | some v =>
    have hv : v ≤ t := hb (cat, v) (lookupCd_mem hl)
    simp [hl, not_lt]
    linarith

theorem step_preserves_bound (st : DispatchState) (c : CycleInput) (t : ℚ)
    (hb : TimesBounded st.cooldown_tracker t) (hc : c.current_time ≤ t) :
    TimesBounded (process_queue_step st c.alert c.current_time c.isoAtRecord
      c.outcomes c.isoAtSend).1.cooldown_tracker t := by
  cases hadm : cooldown_check st.cooldown_tracker (c.alert.type.getD "default")
      (c.alert.cooldown.getD 0) c.current_time with
  | false =>
    rw [process_step_dropped st c.alert c.current_time c.isoAtRecord c.outcomes
      c.isoAtSend hadm]
    exact hb
  | true =>
    rw [process_step_admitted st c.alert c.current_time c.isoAtRecord c.outcomes
      c.isoAtSend hadm]
    cases hs : (send_to_telegram c.outcomes c.isoAtSend).success with
    | false =>
      simp only [hs, if_false, Bool.false_eq_true]
      exact hb
    | true =>
      simp only [hs, if_true]
      intro p hp
      rcases List.mem_cons.mp hp with hp1 | hp2
      · rw [hp1]
        exact hc
      · exact hb p hp2

theorem run_preserves_bound (inputs : List CycleInput) (t : ℚ) :
    ∀ st : DispatchState, TimesBounded st.cooldown_tracker t →
      (∀ c ∈ inputs, c.current_time ≤ t) →
      TimesBounded (run_cycles st inputs).cooldown_tracker t := by
  induction inputs with
  | nil =>
    intro st hb _
    exact hb
  | cons c rest ih =>
    intro st hb hin
    rw [run_cycles]
    exact ih _ (step_preserves_bound st c t hb (hin c (List.mem_cons_self _ _)))
      (fun x hx => hin x (List.mem_cons_of_mem _ hx))

/-- C8: in any run of the dispatcher in which all monotonic samples are
nonnegative and no later than the present sample (which is what a monotonic
clock guarantees), every cooldown-tracker timestamp is at most the present
sample, and therefore an alert with cooldownSeconds 0 always passes the
cooldown check, whatever the reachable contents of the cooldown map and for
every category. -/
theorem cooldown_zero_always_admits (now : ℚ) (hnow : 0 ≤ now)
    (inputs : List CycleInput) (ht : ∀ c ∈ inputs, c.current_time ≤ now)
    (cat : String) :
    TimesBounded (run_cycles initState inputs).cooldown_tracker now ∧
    cooldown_check (run_cycles initState inputs).cooldown_tracker cat 0 now = true := by
  have hb : TimesBounded (run_cycles initState inputs).cooldown_tracker now := by
    refine run_preserves_bound inputs now initState ?_ ht
    intro p hp
    simp [initState] at hp
  exact ⟨hb, cooldown_check_zero _ _ _ hnow hb⟩

theorem cooldown_zero_always_admits_witness :
    cooldown_check (run_cycles initState [cyc1]).cooldown_tracker "price" 0 100
      = true := by
  refine (cooldown_zero_always_admits 100 (by norm_num) [cyc1] ?_ "price").2
  intro c hc
  rw [List.mem_singleton] at hc
  rw [hc]
  show (50 : ℚ) ≤ 100
  norm_num

theorem worker_aux : ∀ (events : List CycleEvent) (st : DispatchState),
    CycleEvent.cancel ∉ events →
    (worker st events).2.1 = events.length ∧ (worker st events).2.2 = true := by
  intro events
  induction events with
  | nil =>
    intro st _
    exact ⟨rfl, rfl⟩
  | cons e rest ih =>
    intro st h
    have hrest : CycleEvent.cancel ∉ rest := fun hm => h (List.mem_cons_of_mem _ hm)
    cases e with
    | item a t iA out iS =>
      have hr := ih ((process_queue_step st a t iA out iS).1) hrest
      simp [worker, hr.1, hr.2]
    | fault f =>
      have hr := ih (f st) hrest
      simp [worker, hr.1, hr.2]
    | cancel =>
      exact absurd (List.mem_cons_self _ _) h

/-- C9: as long as no cancellation signal arrives, the dispatch worker
consumes every event and keeps running: a processing fault (any exception
raised while handling one dequeued item) is caught inside the loop and the
worker goes on to the next item; only a CancelledError stops the loop. -/
theorem worker_survives_faults (st : DispatchState) (events : List CycleEvent)
    (h : CycleEvent.cancel ∉ events) :
    (worker st events).2.1 = events.length ∧ (worker st events).2.2 = true :=
  worker_aux events st h

theorem worker_survives_faults_witness :
    (worker initState [CycleEvent.fault id]).2.1 = 1 ∧
    (worker initState [CycleEvent.fault id]).2.2 = true :=
  worker_survives_faults initState [CycleEvent.fault id]
    (fun hm => CycleEvent.noConfusion (List.mem_singleton.mp hm))

/-- C10: on a successful delivery the cooldown entry written for the
category is the monotonic sample taken when the alert was dequeued and
admitted, before any delivery attempt: the written tracker does not depend
on the delivery environment at all (beyond its success), and the next alert
of that category at time t passes the cooldown check iff t - now has
reached its cooldown, so the suppression window starts at admission time. -/
theorem cooldown_marks_admission_time (st : DispatchState) (a : AlertDict)
    (now : ℚ) (iA : String) (out1 out2 : ℕ → AttemptOutcome) (iS1 iS2 : String)
    (hadm : cooldown_check st.cooldown_tracker (a.type.getD "default")
      (a.cooldown.getD 0) now = true)
    (h1 : (send_to_telegram out1 iS1).success = true)
    (h2 : (send_to_telegram out2 iS2).success = true) :
    lookupCd (process_queue_step st a now iA out1 iS1).1.cooldown_tracker
      (a.type.getD "default") = some now ∧
    (process_queue_step st a now iA out1 iS1).1.cooldown_tracker =
      (process_queue_step st a now iA out2 iS2).1.cooldown_tracker ∧
    (∀ cd2 t : ℚ,
      cooldown_check (process_queue_step st a now iA out1 iS1).1.cooldown_tracker
        (a.type.getD "default") cd2 t = true ↔ ¬ (t - now < cd2)) := by
  have ht1 : (process_queue_step st a now iA out1 iS1).1.cooldown_tracker =
      setCd st.cooldown_tracker (a.type.getD "default") now := by
    rw [process_step_admitted st a now iA out1 iS1 hadm]
    simp [h1]
  have ht2 : (process_queue_step st a now iA out2 iS2).1.cooldown_tracker =
      setCd st.cooldown_tracker (a.type.getD "default") now := by
    rw [process_step_admitted st a now iA out2 iS2 hadm]
    simp [h2]
  refine ⟨?_, by rw [ht1, ht2], ?_⟩
  · rw [ht1]
    exact lookupCd_setCd_self _ _ _
  · intro cd2 t
    rw [ht1, cooldown_check_iff, lookupCd_setCd_self]
    rfl

theorem cooldown_marks_admission_time_witness :
    lookupCd (process_queue_step initState alert60 100 "A" outAllOk "S").1.cooldown_tracker
      "price" = some 100 ∧
    (cooldown_check (process_queue_step initState alert60 100 "A" outAllOk "S").1.cooldown_tracker
      "price" 60 130 = true ↔ ¬ ((130 : ℚ) - 100 < 60)) := by
  have h := cooldown_marks_admission_time initState alert60 100 "A" outAllOk outAllOk
    "S" "S" (by norm_num [cooldown_check, lookupCd, initState, alert60]) (by decide)
    (by decide)
  exact ⟨h.1, h.2.2 60 130⟩
